import Mathlib

/-!
Verification of `zerver/lib/event_schema.py` (Zulip event schema validators).

The module under verification builds declarative validators for Zulip event
payloads.  Payloads are untyped JSON-like trees; we embed them as the
inductive `Value`.  The validator combinator library it imports
(`zerver/lib/validator.py`) and the host data-model registries
(`Realm.property_types`, `UserProfile.property_types`,
`Stream.STREAM_POST_POLICY_TYPES`) are external to the source under
verification and are modelled from the specification, as noted on each
definition.  Everything else is translated directly from
`zerver/lib/event_schema.py`.
-/

/-- An untyped event payload value: one of boolean, integer, string, null,
ordered sequence, or string-keyed mapping (a Python dict never repeats a
key; mappings produced by deserialization satisfy that, but none of the
definitions below depend on it). -/
inductive Value where
  | vbool : Bool → Value
  | vint : Int → Value
  | vstr : String → Value
  | vnull : Value
  | vlist : List Value → Value
  | vdict : List (String × Value) → Value
deriving Repr

mutual

/-- Structural equality on values (Python `==` restricted to same-kind
operands, which is all the schemas in this module ever compare). -/
def valueBeq : Value → Value → Bool
  | .vbool a, .vbool b => a == b
  | .vint a, .vint b => a == b
  | .vstr a, .vstr b => a == b
  | .vnull, .vnull => true
  | .vlist xs, .vlist ys => valueListBeq xs ys
  | .vdict xs, .vdict ys => valuePairsBeq xs ys
  | _, _ => false

/-- Pointwise structural equality on value sequences. -/
def valueListBeq : List Value → List Value → Bool
  | [], [] => true
  | a :: as, b :: bs => valueBeq a b && valueListBeq as bs
  | _, _ => false

/-- Pointwise structural equality on key/value pair sequences. -/
def valuePairsBeq : List (String × Value) → List (String × Value) → Bool
  | [], [] => true
  | (k, a) :: as, (l, b) :: bs => k == l && valueBeq a b && valuePairsBeq as bs
  | _, _ => false

end

/-- A validator maps a value to success (`true`) or failure (`false`).
Failure messages and the diagnostic label are not load-bearing for any
claim, so they are elided: only the accept/reject outcome is modelled. -/
def Validator : Type := Value → Bool

/-- First-match lookup in a key/value pair list (Python `d[k]` / `k in d`;
on a real dict keys are unique so first match is the match). -/
def lookupVal : List (String × Value) → String → Option Value
  | [], _ => none
  | (k, v) :: rest, key => if k = key then some v else lookupVal rest key

/-- Python `event[k]` on a value known to be a dict (`none` when the key is
missing or the value is not a mapping, situations where the source would
raise). -/
def getField : Value → String → Option Value
  | .vdict d, k => lookupVal d k
  | _, _ => none

/-- Python `k in event.keys()`. -/
def hasField (v : Value) (k : String) : Bool :=
  (getField v k).isSome

/-- Modelled from the spec: `check_bool` from `zerver/lib/validator.py`
(not under src/) succeeds iff the value's runtime kind is boolean. -/
def check_bool : Validator := fun v =>
  match v with
  | .vbool _ => true
  | _ => false

/-- Modelled from the spec: `check_int` from `zerver/lib/validator.py`
(not under src/) succeeds iff the value's runtime kind is integer; per the
spec a boolean is never silently treated as an integer. -/
def check_int : Validator := fun v =>
  match v with
  | .vint _ => true
  | _ => false

/-- Modelled from the spec: `check_string` from `zerver/lib/validator.py`
(not under src/) succeeds iff the value's runtime kind is string. -/
def check_string : Validator := fun v =>
  match v with
  | .vstr _ => true
  | _ => false

/-- Modelled from the spec: `equals(x)` from `zerver/lib/validator.py`
(not under src/) succeeds iff the value is structurally identical to the
literal `x` (kind must also match). -/
def equals (x : Value) : Validator := fun v => valueBeq v x

/-- Modelled from the spec: `check_none_or(v)` from
`zerver/lib/validator.py` (not under src/) succeeds on null, otherwise
delegates to the inner validator. -/
def check_none_or (f : Validator) : Validator := fun v =>
  match v with
  | .vnull => true
  | _ => f v

/-- Modelled from the spec: `check_union(vs)` from
`zerver/lib/validator.py` (not under src/) succeeds iff any alternative
succeeds, trying them in order. -/
def check_union (fs : List Validator) : Validator := fun v =>
  fs.any (fun f => f v)

/-- Modelled from the spec: `check_list(v)` from `zerver/lib/validator.py`
(not under src/) requires an ordered sequence each of whose elements
satisfies the inner validator. -/
def check_list (f : Validator) : Validator := fun v =>
  match v with
  | .vlist xs => xs.all f
  | _ => false

/-- Modelled from the spec: `check_dict_only(required_keys, optional_keys)`
from `zerver/lib/validator.py` (not under src/) requires a mapping where
every required key is present and passes its validator, every optional key
passes its validator when present, and no undeclared key is present. -/
def check_dict_only (required_keys : List (String × Validator))
    (optional_keys : List (String × Validator)) : Validator := fun v =>
  match v with
  | .vdict d =>
    (required_keys.all (fun p =>
        match lookupVal d p.1 with
        | some x => p.2 x
        | none => false)) &&
    (optional_keys.all (fun p =>
        match lookupVal d p.1 with
        | some x => p.2 x
        | none => true)) &&
    (d.all (fun p =>
        required_keys.any (fun q => q.1 == p.1) ||
        optional_keys.any (fun q => q.1 == p.1)))
  | _ => false

/-- A validator that always fails; stands for the unreachable result of a
schema whose construction-time assertions fired (module import would have
aborted). -/
def failValidator : Validator := fun _ => false

/-- `basic_stream_fields` from the source, lines 25-37. -/
def basic_stream_fields : List (String × Validator) :=
  [ ("description", check_string),
    ("first_message_id", check_none_or check_int),
    ("history_public_to_subscribers", check_bool),
    ("invite_only", check_bool),
    ("is_announcement_only", check_bool),
    ("is_web_public", check_bool),
    ("message_retention_days", equals Value.vnull),
    ("name", check_string),
    ("rendered_description", check_string),
    ("stream_id", check_int),
    ("stream_post_policy", check_int) ]

/-- `subscription_fields` from the source, lines 39-52. -/
def subscription_fields : List (String × Validator) :=
  basic_stream_fields ++
  [ ("audible_notifications", check_none_or check_bool),
    ("color", check_string),
    ("desktop_notifications", check_none_or check_bool),
    ("email_address", check_string),
    ("email_notifications", check_none_or check_bool),
    ("in_home_view", check_bool),
    ("is_muted", check_bool),
    ("pin_to_top", check_bool),
    ("push_notifications", check_none_or check_bool),
    ("stream_weekly_traffic", check_none_or check_int),
    ("wildcard_mentions_notify", check_none_or check_bool) ]

/-- `check_events_dict(required_keys, optional_keys)` from the source,
lines 55-79.  The three construction-time `assert` statements become the
`if` guard: a failed assertion aborts construction, modelled as `none`
(Python `len(keys) == len(set(keys))` is the duplicate-freedom test,
rendered as the dedup length equation). -/
def check_events_dict (required_keys : List (String × Validator))
    (optional_keys : List (String × Validator)) : Option Validator :=
  let rkeys := required_keys.map Prod.fst
  let okeys := optional_keys.map Prod.fst
  let keys := rkeys ++ okeys
  if keys.dedup.length = keys.length ∧ "type" ∈ rkeys ∧ "id" ∉ keys then
    some (check_dict_only (required_keys ++ [("id", check_int)]) optional_keys)
  else
    none

/-- `check_value` from the source, lines 82-89. -/
def check_value : Validator :=
  check_union [check_bool, check_int, check_string]

/-- `check_optional_value` from the source, lines 91-99. -/
def check_optional_value : Validator :=
  check_union [check_bool, check_int, check_string, equals Value.vnull]

/-- The kinds a host registry may declare for a property's value, per the
spec: boolean, integer, string, integer-or-null, string-or-null. -/
inductive PropKind where
  | pBool
  | pInt
  | pStr
  | pIntOrNull
  | pStrOrNull
deriving DecidableEq, Repr

/-- A `Realm.property_types` registry entry: either one of the recognized
kinds or some unrecognized type object (the source's final
`raise AssertionError(f"Unexpected property type ...")` branch). -/
inductive RegEntry where
  | known : PropKind → RegEntry
  | unrecognized : RegEntry
deriving DecidableEq, Repr

/-- Python `isinstance(v, bool)`. -/
def pyIsBool : Value → Bool
  | .vbool _ => true
  | _ => false

/-- Python `isinstance(v, int)`: in Python, `bool` is a subclass of `int`,
so booleans are instances of `int`. -/
def pyIsInt : Value → Bool
  | .vbool _ => true
  | .vint _ => true
  | _ => false

/-- Python `isinstance(v, str)`. -/
def pyIsStr : Value → Bool
  | .vstr _ => true
  | _ => false

/-- Python `v is None`. -/
def pyIsNone : Value → Bool
  | .vnull => true
  | _ => false

/-- `_check_realm_update` from the source, lines 107-114; its
construction-time assertions pass, so the `Option` collapses to the
underlying validator. -/
def _check_realm_update : Validator :=
  (check_events_dict
    [ ("type", equals (Value.vstr "realm")),
      ("op", equals (Value.vstr "update")),
      ("property", check_string),
      ("value", check_value) ]
    []).getD failValidator

/-- `check_realm_update` from the source, lines 117-141.  The external
registry `Realm.property_types` (not under src/) is passed as the
parameter `reg`, modelled from the spec as a partial map from property
names to declared types; a missing key (Python `KeyError`), a failed
`assert`, and the final `raise` are all failure (`false`).  The source's
`assert isinstance(value, property_type)` for `int`-typed properties and
`assert isinstance(value, int)` for `(int, NoneType)`-typed properties use
Python `isinstance`, under which booleans are integers. -/
def check_realm_update (reg : String → Option RegEntry) (event : Value) : Bool :=
  _check_realm_update event &&
  (match getField event "property" with
   | some (.vstr prop) =>
     (match getField event "value" with
      | some value =>
        (match reg prop with
         | some (.known .pBool) => pyIsBool value
         | some (.known .pInt) => pyIsInt value
         | some (.known .pStr) => pyIsStr value
         | some (.known .pIntOrNull) => pyIsInt value
         | some (.known .pStrOrNull) => pyIsStr value
         | some .unrecognized => false
         | none => false)
      | none => false)
   | _ => false)

/-- `check_stream_create` from the source, lines 144-150. -/
def check_stream_create : Validator :=
  (check_events_dict
    [ ("type", equals (Value.vstr "stream")),
      ("op", equals (Value.vstr "create")),
      ("streams", check_list (check_dict_only basic_stream_fields [])) ]
    []).getD failValidator

/-- `_check_stream_update` from the source, lines 152-165. -/
def _check_stream_update : Validator :=
  (check_events_dict
    [ ("type", equals (Value.vstr "stream")),
      ("op", equals (Value.vstr "update")),
      ("property", check_string),
      ("value", check_optional_value),
      ("name", check_string),
      ("stream_id", check_int) ]
    [ ("rendered_description", check_string),
      ("history_public_to_subscribers", check_bool) ]).getD failValidator

/-- The fixed base key set of `check_stream_update`, source lines 173-181. -/
def streamUpdateBaseKeys : List String :=
  ["id", "type", "op", "property", "value", "name", "stream_id"]

/-- Python `set(event.keys()) - {base keys}` from `check_stream_update`:
the event's keys outside the fixed base set (as a list; only membership
matters, mirroring set semantics). -/
def extraKeys (event : Value) : List String :=
  match event with
  | .vdict d => (d.map Prod.fst).filter (fun k => !(streamUpdateBaseKeys.contains k))
  | _ => []

/-- Python set equality `xs == ys` for string sets represented as lists:
same members. -/
def setEqL (xs ys : List String) : Bool :=
  xs.all (fun k => ys.contains k) && ys.all (fun k => xs.contains k)

/-- `check_stream_update` from the source, lines 168-203.  The external
enumeration `Stream.STREAM_POST_POLICY_TYPES` (not under src/) appears
only through the membership test `value in Stream.STREAM_POST_POLICY_TYPES`,
modelled from the spec as the membership predicate parameter `ppMem`.
`if value is not None: assert isinstance(value, int)` becomes
`pyIsNone value || pyIsInt value` (booleans are Python integers). -/
def check_stream_update (ppMem : Value → Bool) (event : Value) : Bool :=
  _check_stream_update event &&
  (match getField event "property" with
   | some (.vstr prop) =>
     (match getField event "value" with
      | some value =>
        if prop = "description" then
          setEqL (extraKeys event) ["rendered_description"] && pyIsStr value
        else if prop = "email_address" then
          setEqL (extraKeys event) [] && pyIsStr value
        else if prop = "invite_only" then
          setEqL (extraKeys event) ["history_public_to_subscribers"] && pyIsBool value
        else if prop = "message_retention_days" then
          setEqL (extraKeys event) [] && (pyIsNone value || pyIsInt value)
        else if prop = "name" then
          setEqL (extraKeys event) [] && pyIsStr value
        else if prop = "stream_post_policy" then
          setEqL (extraKeys event) [] && ppMem value
        else false
      | none => false)
   | _ => false)

/-- `_check_single_subscription` from the source, lines 206-212. -/
def _check_single_subscription : Validator :=
  check_dict_only subscription_fields [("subscribers", check_list check_int)]

/-- `_check_subscription_add` from the source, lines 214-220. -/
def _check_subscription_add : Validator :=
  (check_events_dict
    [ ("type", equals (Value.vstr "subscription")),
      ("op", equals (Value.vstr "add")),
      ("subscriptions", check_list _check_single_subscription) ]
    []).getD failValidator

/-- `check_subscription_add` from the source, lines 223-232: after the
generic schema, every subscription object must carry "subscribers" when
`include_subscribers` is set and none may carry it otherwise. -/
def check_subscription_add (include_subscribers : Bool) (event : Value) : Bool :=
  _check_subscription_add event &&
  (match getField event "subscriptions" with
   | some (.vlist subs) =>
     subs.all (fun sub =>
       if include_subscribers then hasField sub "subscribers"
       else !(hasField sub "subscribers"))
   | _ => false)

/-- `_check_update_display_settings` from the source, lines 269-280. -/
def _check_update_display_settings : Validator :=
  (check_events_dict
    [ ("type", equals (Value.vstr "update_display_settings")),
      ("setting_name", check_string),
      ("setting", check_value),
      ("user", check_string) ]
    [ ("language_name", check_string) ]).getD failValidator

/-- Python `isinstance(setting, setting_type)` where `setting_type` is a
registry entry: a recognized kind or the `(T, NoneType)` tuple forms. -/
def pyIsinstanceKind (v : Value) : PropKind → Bool
  | .pBool => pyIsBool v
  | .pInt => pyIsInt v
  | .pStr => pyIsStr v
  | .pIntOrNull => pyIsInt v || pyIsNone v
  | .pStrOrNull => pyIsStr v || pyIsNone v

/-- `check_update_display_settings` from the source, lines 283-299.  The
external registry `UserProfile.property_types` (not under src/) is the
parameter `reg`, modelled from the spec as a partial map from setting
names to declared kinds; a missing key (Python `KeyError`) is failure. -/
def check_update_display_settings (reg : String → Option PropKind)
    (event : Value) : Bool :=
  _check_update_display_settings event &&
  (match getField event "setting_name" with
   | some (.vstr setting_name) =>
     (match getField event "setting" with
      | some setting =>
        (match reg setting_name with
         | some k =>
           pyIsinstanceKind setting k &&
           (if setting_name = "default_language" then
              hasField event "language_name"
            else
              !(hasField event "language_name"))
         | none => false)
      | none => false)
   | _ => false)

/-- Modelled from the spec: a value's kind "matches exactly" a registered
type — boolean for boolean, integer (and not boolean) for integer, string
for string, integer or null for integer-or-null, string or null for
string-or-null.  This is the claims' notion of matching, used in
hypotheses; the source's `isinstance` tests are `pyIsinstanceKind`. -/
def kindMatches (v : Value) : PropKind → Bool
  | .pBool => check_bool v
  | .pInt => check_int v
  | .pStr => check_string v
  | .pIntOrNull => check_int v || pyIsNone v
  | .pStrOrNull => check_string v || pyIsNone v

/-- The six stream properties known to `check_stream_update`. -/
def streamUpdateKnownProp (prop : String) : Bool :=
  decide (prop = "description") || decide (prop = "email_address") ||
  decide (prop = "invite_only") || decide (prop = "message_retention_days") ||
  decide (prop = "name") || decide (prop = "stream_post_policy")

/-- The exact extra-key set each known stream property mandates:
{rendered_description} for description, {history_public_to_subscribers}
for invite_only, empty for the other four. -/
def streamUpdateMandatedExtras (prop : String) : List String :=
  if prop = "description" then ["rendered_description"]
  else if prop = "invite_only" then ["history_public_to_subscribers"]
  else []

/-- The per-property value constraint of the amended C4 claim: string for
description, email_address and name; boolean for invite_only; integer,
boolean or null for message_retention_days (the source tests Python
`isinstance(value, int)`, and booleans are Python integers); membership in
the post-policy enumeration for stream_post_policy. -/
def streamUpdateValueOK (ppMem : Value → Bool) (prop : String) (v : Value) : Bool :=
  if prop = "description" ∨ prop = "email_address" ∨ prop = "name" then pyIsStr v
  else if prop = "invite_only" then pyIsBool v
  else if prop = "message_retention_days" then pyIsInt v || pyIsNone v
  else ppMem v

/-- The "streams" list of a stream-create event (empty when absent,
which cannot happen for an accepted event). -/
def getStreams (e : Value) : List Value :=
  match getField e "streams" with
  | some (.vlist xs) => xs
  | _ => []

/-- A post-policy membership predicate rejecting everything; concrete
stand-in for `Stream.STREAM_POST_POLICY_TYPES` where the post-policy
branch is not exercised. -/
def ppNone : Value → Bool := fun _ => false

/-- Concrete registry mapping "mandatory_topics" to the integer kind. -/
def regRealmInt : String → Option RegEntry := fun s =>
  if s = "mandatory_topics" then some (.known .pInt) else none

/-- Concrete registry mapping "mandatory_topics" to the boolean kind (the
spec's scenario registry). -/
def regRealmBool : String → Option RegEntry := fun s =>
  if s = "mandatory_topics" then some (.known .pBool) else none

/-- Concrete registry with no keys at all. -/
def regRealmEmpty : String → Option RegEntry := fun _ => none

/-- Concrete user-settings registry mapping "default_language" to string. -/
def regUserLang : String → Option PropKind := fun s =>
  if s = "default_language" then some .pStr else none

/-- The spec's realm-update scenario event with a boolean value. -/
def evRealmTrue : Value := .vdict
  [ ("type", .vstr "realm"), ("op", .vstr "update"),
    ("property", .vstr "mandatory_topics"), ("value", .vbool true),
    ("id", .vint 5) ]

/-- The spec's realm-update scenario event with integer value 1. -/
def evRealmOne : Value := .vdict
  [ ("type", .vstr "realm"), ("op", .vstr "update"),
    ("property", .vstr "mandatory_topics"), ("value", .vint 1),
    ("id", .vint 5) ]

/-- The spec's stream-create scenario event with an empty streams list. -/
def evStreamCreateEmpty : Value := .vdict
  [ ("type", .vstr "stream"), ("op", .vstr "create"),
    ("streams", .vlist []), ("id", .vint 1) ]

/-- The stream-create scenario event with "op" changed to "remove". -/
def evStreamCreateWrongOp : Value := .vdict
  [ ("type", .vstr "stream"), ("op", .vstr "remove"),
    ("streams", .vlist []), ("id", .vint 1) ]

/-- A stream object satisfying every basic stream field except that the
"name" key is missing. -/
def streamMissingName : Value := .vdict
  [ ("description", .vstr "d"), ("first_message_id", .vnull),
    ("history_public_to_subscribers", .vbool true),
    ("invite_only", .vbool false), ("is_announcement_only", .vbool false),
    ("is_web_public", .vbool false), ("message_retention_days", .vnull),
    ("rendered_description", .vstr "d"), ("stream_id", .vint 7),
    ("stream_post_policy", .vint 1) ]

/-- The stream-create scenario event whose single stream misses "name". -/
def evStreamCreateNoName : Value := .vdict
  [ ("type", .vstr "stream"), ("op", .vstr "create"),
    ("streams", .vlist [streamMissingName]), ("id", .vint 1) ]

/-- A stream object satisfying all basic stream fields. -/
def streamComplete : Value := .vdict
  [ ("description", .vstr "d"), ("first_message_id", .vnull),
    ("history_public_to_subscribers", .vbool true),
    ("invite_only", .vbool false), ("is_announcement_only", .vbool false),
    ("is_web_public", .vbool false), ("message_retention_days", .vnull),
    ("name", .vstr "general"), ("rendered_description", .vstr "d"),
    ("stream_id", .vint 7), ("stream_post_policy", .vint 1) ]

/-- A stream-create event carrying one complete stream object. -/
def evStreamCreateOne : Value := .vdict
  [ ("type", .vstr "stream"), ("op", .vstr "create"),
    ("streams", .vlist [streamComplete]), ("id", .vint 1) ]

/-- A stream-update event for message_retention_days whose value is the
boolean `true`. -/
def evStreamUpdMRDTrue : Value := .vdict
  [ ("type", .vstr "stream"), ("op", .vstr "update"),
    ("property", .vstr "message_retention_days"), ("value", .vbool true),
    ("name", .vstr "s"), ("stream_id", .vint 1), ("id", .vint 1) ]

/-- A stream-update event setting message_retention_days to integer 5. -/
def evStreamUpdMRDFive : Value := .vdict
  [ ("type", .vstr "stream"), ("op", .vstr "update"),
    ("property", .vstr "message_retention_days"), ("value", .vint 5),
    ("name", .vstr "s"), ("stream_id", .vint 1), ("id", .vint 1) ]

/-- The spec's stream-update scenario event for invite_only, carrying the
mandated history_public_to_subscribers extra. -/
def evStreamUpdInviteOnly : Value := .vdict
  [ ("type", .vstr "stream"), ("op", .vstr "update"),
    ("property", .vstr "invite_only"), ("value", .vbool true),
    ("name", .vstr "s"), ("stream_id", .vint 1),
    ("history_public_to_subscribers", .vbool true), ("id", .vint 1) ]

/-- A subscription-add event with an empty subscriptions list. -/
def evSubAddEmpty : Value := .vdict
  [ ("type", .vstr "subscription"), ("op", .vstr "add"),
    ("subscriptions", .vlist []), ("id", .vint 1) ]

/-- A subscription object with every subscription field and a
"subscribers" list. -/
def subWithSubscribers : Value := .vdict
  [ ("description", .vstr "d"), ("first_message_id", .vnull),
    ("history_public_to_subscribers", .vbool true),
    ("invite_only", .vbool false), ("is_announcement_only", .vbool false),
    ("is_web_public", .vbool false), ("message_retention_days", .vnull),
    ("name", .vstr "general"), ("rendered_description", .vstr "d"),
    ("stream_id", .vint 7), ("stream_post_policy", .vint 1),
    ("audible_notifications", .vnull), ("color", .vstr "#ffffff"),
    ("desktop_notifications", .vnull), ("email_address", .vstr "a@b"),
    ("email_notifications", .vnull), ("in_home_view", .vbool true),
    ("is_muted", .vbool false), ("pin_to_top", .vbool false),
    ("push_notifications", .vnull), ("stream_weekly_traffic", .vnull),
    ("wildcard_mentions_notify", .vnull),
    ("subscribers", .vlist [.vint 3, .vint 4]) ]

/-- A subscription-add event whose single subscription carries
"subscribers". -/
def evSubAddOne : Value := .vdict
  [ ("type", .vstr "subscription"), ("op", .vstr "add"),
    ("subscriptions", .vlist [subWithSubscribers]), ("id", .vint 1) ]

/-- An update_display_settings event for default_language carrying
language_name. -/
def evDisplayLang : Value := .vdict
  [ ("type", .vstr "update_display_settings"),
    ("setting_name", .vstr "default_language"), ("setting", .vstr "en"),
    ("user", .vstr "u"), ("language_name", .vstr "English"),
    ("id", .vint 1) ]

/-- A list has as many elements as its deduplication exactly when it has no
duplicates (Python `len(keys) == len(set(keys))`). -/
theorem dedup_length_eq_iff {l : List String} :
    l.dedup.length = l.length ↔ l.Nodup := by
  constructor
  · intro h
    have hs : l.dedup = l := (List.dedup_sublist l).eq_of_length h
    exact hs ▸ l.nodup_dedup
  · intro h
    rw [List.dedup_eq_self.mpr h]

/-- A mapping accepted by `check_dict_only` carries every required key,
with a value passing that key's validator. -/
theorem cdo_required_lookup {req opt : List (String × Validator)}
    {d : List (String × Value)} {k : String} {f : Validator}
    (h : check_dict_only req opt (.vdict d) = true) (hmem : (k, f) ∈ req) :
    ∃ x, lookupVal d k = some x ∧ f x = true := by
  simp only [check_dict_only, Bool.and_eq_true, List.all_eq_true] at h
  have hkf := h.1.1 (k, f) hmem
  dsimp only at hkf
  cases hx : lookupVal d k with
  | none => rw [hx] at hkf; exact absurd hkf (by simp)
  | some x => rw [hx] at hkf; exact ⟨x, rfl, hkf⟩

/-- Only null is structurally equal to null. -/
theorem valueBeq_vnull {v : Value} (h : valueBeq v .vnull = true) :
    v = .vnull := by
  cases v <;> simp [valueBeq] at h ⊢

/-- The spec's exact kind matching implies the source's Python
`isinstance` test for the same registered kind. -/
theorem kindMatches_pyIsinstance {v : Value} {k : PropKind}
    (h : kindMatches v k = true) : pyIsinstanceKind v k = true := by
  cases k <;> cases v <;>
    simp [kindMatches, pyIsinstanceKind, check_bool, check_int, check_string,
      pyIsBool, pyIsInt, pyIsStr, pyIsNone] at h ⊢

/-- `check_value` (the generic realm-update value schema) rejects null. -/
theorem check_value_not_null {v : Value} (h : check_value v = true) :
    pyIsNone v = false := by
  cases v <;> simp [check_value, check_union, check_bool, check_int,
    check_string, pyIsNone, List.any] at h ⊢

/-- The generic realm-update schema, unfolded: its construction-time
assertions hold, so it is the underlying `check_dict_only` with the
injected "id" key. -/
theorem _check_realm_update_eq :
    _check_realm_update = check_dict_only
      [ ("type", equals (Value.vstr "realm")),
        ("op", equals (Value.vstr "update")),
        ("property", check_string),
        ("value", check_value),
        ("id", check_int) ] [] := by
  rfl

/-- The stream-create schema, unfolded: its construction-time assertions
hold, so it is the underlying `check_dict_only` with the injected "id"
key. -/
theorem check_stream_create_eq :
    check_stream_create = check_dict_only
      [ ("type", equals (Value.vstr "stream")),
        ("op", equals (Value.vstr "create")),
        ("streams", check_list (check_dict_only basic_stream_fields [])),
        ("id", check_int) ] [] := by
  rfl

/-- The message_retention_days field specification of the basic stream
schema, pinned to the literal null. -/
theorem mrd_mem_basic :
    ("message_retention_days", equals Value.vnull) ∈ basic_stream_fields := by
  unfold basic_stream_fields
  exact List.Mem.tail _ (List.Mem.tail _ (List.Mem.tail _ (List.Mem.tail _
    (List.Mem.tail _ (List.Mem.tail _ (List.Mem.head _))))))

/-- Claim C1, counterexample to the claim as stated: with a registry
mapping "mandatory_topics" to the integer kind, the event whose "value"
is the boolean `true` passes the generic realm-update schema and
`check_realm_update` succeeds — although the claim demands failure for a
boolean value under an integer-typed property.  The source's
`assert isinstance(value, property_type)` accepts it because Python
booleans are instances of `int`. -/
theorem claim_C1_counterexample :
    _check_realm_update evRealmTrue = true ∧
    getField evRealmTrue "property" = some (.vstr "mandatory_topics") ∧
    getField evRealmTrue "value" = some (.vbool true) ∧
    regRealmInt "mandatory_topics" = some (RegEntry.known PropKind.pInt) ∧
    check_realm_update regRealmInt evRealmTrue = true :=
  ⟨by decide, rfl, rfl, rfl, by decide⟩

/-- Claim C1, amended: for every event accepted by the generic
realm-update schema whose "property" is a key of the registry with a
recognized kind, `check_realm_update` succeeds iff the "value" field
passes the Python `isinstance` test of the registered kind: a boolean for
a boolean-typed property; an integer or a boolean for an integer-typed or
integer-or-null-typed property (Python booleans are integers, and null
never reaches the refinement since the generic schema rejects it); a
string for a string-typed or string-or-null-typed property. -/
theorem claim_C1_amended (reg : String → Option RegEntry) (event : Value)
    (prop : String) (value : Value) (k : PropKind)
    (hg : _check_realm_update event = true)
    (hp : getField event "property" = some (.vstr prop))
    (hv : getField event "value" = some value)
    (hk : reg prop = some (RegEntry.known k)) :
    check_realm_update reg event = true ↔ pyIsinstanceKind value k = true := by
  have hnn : pyIsNone value = false := by
    cases event with
    | vdict d =>
      rw [_check_realm_update_eq] at hg
      obtain ⟨x, hx, hcv⟩ := cdo_required_lookup hg
        (List.Mem.tail _ (List.Mem.tail _ (List.Mem.tail _ (List.Mem.head _))))
      simp only [getField] at hv
      rw [hv] at hx
      injection hx with hxe
      exact check_value_not_null (hxe ▸ hcv)
    | vbool b => simp [getField] at hv
    | vint n => simp [getField] at hv
    | vstr s => simp [getField] at hv
    | vnull => simp [getField] at hv
    | vlist l => simp [getField] at hv
  simp only [check_realm_update, hp, hv, hk, hg, Bool.true_and]
  cases k <;> simp [pyIsinstanceKind, hnn]

/-- Claim C1, witness: the amended theorem applied to the spec's scenario
registry (mandatory_topics is boolean-typed) and the event with boolean
value `true`, which the check accepts. -/
theorem claim_C1_witness :
    _check_realm_update evRealmTrue = true ∧
    regRealmBool "mandatory_topics" = some (RegEntry.known PropKind.pBool) ∧
    (check_realm_update regRealmBool evRealmTrue = true ↔
      pyIsinstanceKind (.vbool true) PropKind.pBool = true) :=
  ⟨by decide, rfl,
    claim_C1_amended regRealmBool evRealmTrue "mandatory_topics" (.vbool true)
      .pBool (by decide) rfl rfl rfl⟩

/-- Claim C2, confirmed: `check_events_dict` aborts at construction time
iff the combined required+optional key names contain a duplicate, or
"type" is missing from the required names, or "id" is named in either
list. -/
theorem claim_C2 (required_keys optional_keys : List (String × Validator)) :
    check_events_dict required_keys optional_keys = none ↔
      (¬ (required_keys.map Prod.fst ++ optional_keys.map Prod.fst).Nodup ∨
        "type" ∉ required_keys.map Prod.fst ∨
        "id" ∈ required_keys.map Prod.fst ++ optional_keys.map Prod.fst) := by
  constructor
  · intro hnone
    by_contra hcon
    push_neg at hcon
    obtain ⟨h1, h2, h3⟩ := hcon
    have heq : check_events_dict required_keys optional_keys =
        some (check_dict_only (required_keys ++ [("id", check_int)])
          optional_keys) := by
      simp only [check_events_dict]
      exact if_pos ⟨dedup_length_eq_iff.mpr h1, h2, h3⟩
    rw [heq] at hnone
    cases hnone
  · intro hor
    simp only [check_events_dict]
    rw [if_neg]
    rintro ⟨hA, hB, hC⟩
    rcases hor with h | h | h
    · exact h (dedup_length_eq_iff.mp hA)
    · exact h hB
    · exact hC h

/-- Claim C3, confirmed: under the construction preconditions,
`check_events_dict` produces exactly the `check_dict_only` validator over
the required keys extended with ("id", check_int) and the optional keys
unchanged, accepting the same values. -/
theorem claim_C3 (required_keys optional_keys : List (String × Validator))
    (h1 : (required_keys.map Prod.fst ++ optional_keys.map Prod.fst).Nodup)
    (h2 : "type" ∈ required_keys.map Prod.fst)
    (h3 : "id" ∉ required_keys.map Prod.fst ++ optional_keys.map Prod.fst) :
    ∃ f, check_events_dict required_keys optional_keys = some f ∧
      ∀ event : Value,
        f event = check_dict_only (required_keys ++ [("id", check_int)])
          optional_keys event := by
  refine ⟨check_dict_only (required_keys ++ [("id", check_int)]) optional_keys,
    ?_, fun _ => rfl⟩
  simp only [check_events_dict]
  exact if_pos ⟨dedup_length_eq_iff.mpr h1, h2, h3⟩

/-- Claim C3, witness: the theorem applied to the one-pair required list
[("type", check_string)] and empty optional list. -/
theorem claim_C3_witness :
    (([("type", check_string)].map Prod.fst ++
        ([] : List (String × Validator)).map Prod.fst).Nodup) ∧
    "type" ∈ [("type", check_string)].map Prod.fst ∧
    "id" ∉ ([("type", check_string)].map Prod.fst ++
        ([] : List (String × Validator)).map Prod.fst) ∧
    (∃ f, check_events_dict [("type", check_string)] [] = some f ∧
      ∀ e, f e = check_dict_only ([("type", check_string)] ++
        [("id", check_int)]) [] e) :=
  ⟨by decide, by decide, by decide,
    claim_C3 _ _ (by decide) (by decide) (by decide)⟩

/-- Claim C4, counterexample to the claim as stated: the stream-update
event for "message_retention_days" whose "value" is the boolean `true`
passes the generic schema and `check_stream_update` succeeds — although
the claim's value constraint for that property is integer-or-null.  The
source's `assert isinstance(value, int)` accepts it because Python
booleans are instances of `int`. -/
theorem claim_C4_counterexample :
    _check_stream_update evStreamUpdMRDTrue = true ∧
    getField evStreamUpdMRDTrue "property" =
      some (Value.vstr "message_retention_days") ∧
    getField evStreamUpdMRDTrue "value" = some (Value.vbool true) ∧
    check_stream_update ppNone evStreamUpdMRDTrue = true :=
  ⟨by decide, rfl, rfl, by decide⟩

/-- Claim C4, amended: for every event accepted by the generic
stream-update schema, `check_stream_update` succeeds iff the "property"
is one of the six known names, the extra keys beyond the fixed base set
equal exactly that property's mandated set, and the "value" satisfies
that property's constraint — where the message_retention_days constraint
is integer, boolean or null (Python booleans are integers); unknown
property names fail. -/
theorem claim_C4_amended (ppMem : Value → Bool) (event : Value)
    (prop : String) (value : Value)
    (hg : _check_stream_update event = true)
    (hp : getField event "property" = some (.vstr prop))
    (hv : getField event "value" = some value) :
    check_stream_update ppMem event = true ↔
      (streamUpdateKnownProp prop = true ∧
       setEqL (extraKeys event) (streamUpdateMandatedExtras prop) = true ∧
       streamUpdateValueOK ppMem prop value = true) := by
  simp only [check_stream_update, hp, hv, hg, Bool.true_and]
  by_cases h1 : prop = "description"
  · subst h1
    simp [streamUpdateKnownProp, streamUpdateMandatedExtras,
      streamUpdateValueOK, Bool.and_eq_true]
  by_cases h2 : prop = "email_address"
  · subst h2
    simp [streamUpdateKnownProp, streamUpdateMandatedExtras,
      streamUpdateValueOK, Bool.and_eq_true]
  by_cases h3 : prop = "invite_only"
  · subst h3
    simp [streamUpdateKnownProp, streamUpdateMandatedExtras,
      streamUpdateValueOK, Bool.and_eq_true]
  by_cases h4 : prop = "message_retention_days"
  · subst h4
    simp [streamUpdateKnownProp, streamUpdateMandatedExtras,
      streamUpdateValueOK, Bool.and_eq_true, Bool.or_comm]
  by_cases h5 : prop = "name"
  · subst h5
    simp [streamUpdateKnownProp, streamUpdateMandatedExtras,
      streamUpdateValueOK, Bool.and_eq_true]
  by_cases h6 : prop = "stream_post_policy"
  · subst h6
    simp [streamUpdateKnownProp, streamUpdateMandatedExtras,
      streamUpdateValueOK, Bool.and_eq_true]
  simp [h1, h2, h3, h4, h5, h6, streamUpdateKnownProp,
    streamUpdateMandatedExtras, streamUpdateValueOK]

/-- Claim C4, witness: the amended theorem applied to the spec's
invite_only scenario event, which carries the mandated
history_public_to_subscribers extra and a boolean value. -/
theorem claim_C4_witness :
    _check_stream_update evStreamUpdInviteOnly = true ∧
    (check_stream_update ppNone evStreamUpdInviteOnly = true ↔
      (streamUpdateKnownProp "invite_only" = true ∧
       setEqL (extraKeys evStreamUpdInviteOnly)
         (streamUpdateMandatedExtras "invite_only") = true ∧
       streamUpdateValueOK ppNone "invite_only" (.vbool true) = true)) :=
  ⟨by decide, claim_C4_amended ppNone evStreamUpdInviteOnly "invite_only"
    (.vbool true) (by decide) rfl rfl⟩

/-- Claim C5, confirmed: for every event accepted by the generic
subscription-add schema, `check_subscription_add` succeeds iff, when the
include_subscribers flag is true, every subscription object carries
"subscribers", and when it is false, none does. -/
theorem claim_C5 (include_subscribers : Bool) (event : Value) (subs : List Value)
    (hg : _check_subscription_add event = true)
    (hs : getField event "subscriptions" = some (.vlist subs)) :
    check_subscription_add include_subscribers event = true ↔
      ((include_subscribers = true →
          ∀ sub ∈ subs, hasField sub "subscribers" = true) ∧
       (include_subscribers = false →
          ∀ sub ∈ subs, hasField sub "subscribers" = false)) := by
  simp only [check_subscription_add, hg, hs, Bool.true_and]
  cases include_subscribers <;> simp [List.all_eq_true]

/-- Claim C5, witness: the theorem applied with flag true to an accepted
event whose single subscription carries "subscribers". -/
theorem claim_C5_witness :
    _check_subscription_add evSubAddOne = true ∧
    getField evSubAddOne "subscriptions" = some (.vlist [subWithSubscribers]) ∧
    (check_subscription_add true evSubAddOne = true ↔
      ((true = true →
          ∀ sub ∈ [subWithSubscribers], hasField sub "subscribers" = true) ∧
       (true = false →
          ∀ sub ∈ [subWithSubscribers], hasField sub "subscribers" = false))) :=
  ⟨by decide, by rfl,
    claim_C5 true evSubAddOne [subWithSubscribers] (by decide) (by rfl)⟩

/-- Claim C6, confirmed: for every event accepted by the generic
display-settings schema whose setting_name is registered and whose
setting value's kind matches the registered type,
`check_update_display_settings` succeeds iff "language_name" is present
exactly when setting_name is the literal "default_language". -/
theorem claim_C6 (reg : String → Option PropKind) (event : Value)
    (setting_name : String) (setting : Value) (k : PropKind)
    (hg : _check_update_display_settings event = true)
    (hn : getField event "setting_name" = some (.vstr setting_name))
    (hv : getField event "setting" = some setting)
    (hr : reg setting_name = some k)
    (hm : kindMatches setting k = true) :
    check_update_display_settings reg event = true ↔
      (hasField event "language_name" = true ↔
        setting_name = "default_language") := by
  have hpy := kindMatches_pyIsinstance hm
  simp only [check_update_display_settings, hg, hn, hv, hr, hpy, Bool.true_and]
  by_cases hd : setting_name = "default_language"
  · simp [hd]
  · simp [hd]

/-- Claim C6, witness: the theorem applied to a default_language event
carrying language_name, with a registry typing default_language as
string. -/
theorem claim_C6_witness :
    _check_update_display_settings evDisplayLang = true ∧
    regUserLang "default_language" = some PropKind.pStr ∧
    kindMatches (.vstr "en") .pStr = true ∧
    (check_update_display_settings regUserLang evDisplayLang = true ↔
      (hasField evDisplayLang "language_name" = true ↔
        "default_language" = "default_language")) :=
  ⟨by decide, by rfl, by decide,
    claim_C6 regUserLang evDisplayLang "default_language" (.vstr "en") .pStr
      (by decide) (by rfl) (by rfl) (by rfl) (by decide)⟩

/-- Claim C7, confirmed: for every event accepted by the generic
realm-update schema whose "property" is absent from the registry or
registered with an unrecognized type, `check_realm_update` fails rather
than passing silently. -/
theorem claim_C7 (reg : String → Option RegEntry) (event : Value) (prop : String)
    (hg : _check_realm_update event = true)
    (hp : getField event "property" = some (.vstr prop))
    (hr : reg prop = none ∨ reg prop = some RegEntry.unrecognized) :
    check_realm_update reg event = false := by
  simp only [check_realm_update, hp]
  rcases hr with h | h <;>
    cases hv : getField event "value" <;> simp [h]

/-- Claim C7, witness: the theorem applied to an accepted realm-update
event under the empty registry. -/
theorem claim_C7_witness :
    _check_realm_update evRealmOne = true ∧
    regRealmEmpty "mandatory_topics" = none ∧
    check_realm_update regRealmEmpty evRealmOne = false :=
  ⟨by decide, rfl,
    claim_C7 regRealmEmpty evRealmOne "mandatory_topics" (by decide) (by rfl)
      (Or.inl rfl)⟩

/-- Claim C8, confirmed: `check_stream_create` accepts the event with
op "create", empty streams and id 1; rejects the same event with op
"remove"; and rejects the event whose single stream object misses the
"name" key. -/
theorem claim_C8 :
    check_stream_create evStreamCreateEmpty = true ∧
    check_stream_create evStreamCreateWrongOp = false ∧
    check_stream_create evStreamCreateNoName = false :=
  ⟨by decide, by decide, by decide⟩

/-- Claim C9, confirmed: for every event accepted by the generic
subscription-add schema whose subscriptions list is empty,
`check_subscription_add` succeeds for both settings of the
include_subscribers flag; the flag has no observable effect. -/
theorem claim_C9 (event : Value)
    (hg : _check_subscription_add event = true)
    (hs : getField event "subscriptions" = some (.vlist [])) :
    ∀ include_subscribers : Bool,
      check_subscription_add include_subscribers event = true := by
  intro flag
  simp [check_subscription_add, hg, hs]

/-- Claim C9, witness: the theorem applied, at both flag values, to the
subscription-add event with an empty subscriptions list. -/
theorem claim_C9_witness :
    _check_subscription_add evSubAddEmpty = true ∧
    getField evSubAddEmpty "subscriptions" = some (.vlist []) ∧
    check_subscription_add true evSubAddEmpty = true ∧
    check_subscription_add false evSubAddEmpty = true :=
  ⟨by decide, by rfl, claim_C9 evSubAddEmpty (by decide) (by rfl) true,
    claim_C9 evSubAddEmpty (by decide) (by rfl) false⟩

/-- Claim C10, confirmed: every stream object of every event accepted by
`check_stream_create` has message_retention_days pinned to the literal
null, while `check_stream_update` accepts an integer value for the same
property name (concretely, 5). -/
theorem claim_C10 :
    (∀ event : Value, check_stream_create event = true →
      ∀ s ∈ getStreams event,
        getField s "message_retention_days" = some Value.vnull) ∧
    getField evStreamUpdMRDFive "property" =
      some (Value.vstr "message_retention_days") ∧
    getField evStreamUpdMRDFive "value" = some (Value.vint 5) ∧
    check_stream_update ppNone evStreamUpdMRDFive = true := by
  refine ⟨?_, rfl, rfl, by decide⟩
  intro event he s hs
  rw [check_stream_create_eq] at he
  cases event with
  | vdict d =>
    obtain ⟨x, hx, hlist⟩ := cdo_required_lookup he
      (List.Mem.tail _ (List.Mem.tail _ (List.Mem.head _)))
    cases x with
    | vlist xs =>
      simp only [getStreams, getField, hx] at hs
      simp only [check_list, List.all_eq_true] at hlist
      have hsd := hlist s hs
      cases s with
      | vdict ds =>
        obtain ⟨y, hy, hynull⟩ := cdo_required_lookup hsd mrd_mem_basic
        simp only [equals] at hynull
        have hyn := valueBeq_vnull hynull
        subst hyn
        simp only [getField, hy]
      | vbool b => simp [check_dict_only] at hsd
      | vint n => simp [check_dict_only] at hsd
      | vstr t => simp [check_dict_only] at hsd
      | vnull => simp [check_dict_only] at hsd
      | vlist l => simp [check_dict_only] at hsd
    | vbool b => simp [check_list] at hlist
    | vint n => simp [check_list] at hlist
    | vstr t => simp [check_list] at hlist
    | vnull => simp [check_list] at hlist
    | vdict d2 => simp [check_list] at hlist
  | vbool b => simp [check_dict_only] at he
  | vint n => simp [check_dict_only] at he
  | vstr t => simp [check_dict_only] at he
  | vnull => simp [check_dict_only] at he
  | vlist l => simp [check_dict_only] at he

/-- Claim C10, witness: the universal part applied to a concrete accepted
stream-create event carrying one complete stream object. -/
theorem claim_C10_witness :
    check_stream_create evStreamCreateOne = true ∧
    streamComplete ∈ getStreams evStreamCreateOne ∧
    getField streamComplete "message_retention_days" = some Value.vnull :=
  ⟨by decide, List.Mem.head _,
    claim_C10.1 evStreamCreateOne (by decide) streamComplete (List.Mem.head _)⟩
